import Mathlib

/-!
Verification development for lua-openssl's src/core.c.

The file shallowly embeds the Lua C function csr_crt (core.c, lines 81-327):
argument marshalling from the Lua stack, the three PEM decodes, the CSR
self-signature verification, the field-by-field construction of the new
certificate, signing, PEM serialisation, and the goto-style cleanup block.
OpenSSL primitives are modelled as an abstract environment (SSLEnv): the
decoders are functions of the input bytes, and every other fallible library
call gets one success flag per call site.  The embedding additionally
records an event trace (one event per completed stage action) and the
allocation/free trace of the heap objects the function manages, so that
ordering and resource claims can be stated.
-/

set_option autoImplicit false

namespace LuaOpenSSL

/-- Raw bytes of a Lua string or of a PEM blob, one Nat per byte. -/
abbrev Bytes := List Nat

/-- An X.509 distinguished name, abstracted to an identifier: csr_crt only
ever copies names verbatim, never inspects them. -/
structure X509Name where
  nameId : Nat
deriving DecidableEq, Repr

/-- An EVP_PKEY key object, abstracted to an identifier. -/
structure EvpPkey where
  keyId : Nat
deriving DecidableEq, Repr

/-- A decoded CA certificate.  csr_crt reads nothing from it except its
subject name (X509_get_subject_name, core.c line 201). -/
structure X509Cert where
  subject : X509Name
deriving DecidableEq, Repr

/-- A decoded certificate signing request.  csr_crt reads its subject name
(line 185), extracts its public key (X509_REQ_get_pubkey, line 218, which
can fail, hence the Option), and verifies the request's self-signature
against that extracted key (X509_REQ_verify, line 226); sigValid records
the outcome of that verification. -/
structure X509Req where
  subject : X509Name
  pubkey : Option EvpPkey
  sigValid : Bool
deriving DecidableEq, Repr

/-- The digest handed to X509_sign; core.c line 265 fixes EVP_sha256. -/
inductive Digest
  | sha256
deriving DecidableEq, Repr

/-- The certificate under construction (the local newcert of core.c), one
field per piece of state the function assigns. -/
structure X509New where
  version : Nat
  serial : Option Int
  subject : Option X509Name
  issuer : Option X509Name
  pubkey : Option EvpPkey
  notBefore : Option Int
  notAfter : Option Int
  signature : Option (EvpPkey × Digest)
deriving DecidableEq, Repr

/-- X509_new (line 158): version field at its zero default, nothing set. -/
def X509New.empty : X509New :=
  { version := 0, serial := none, subject := none, issuer := none,
    pubkey := none, notBefore := none, notAfter := none, signature := none }

/-- The OpenSSL library, as the abstract environment of one csr_crt call.
readRSAPrivateKey models PEM_read_bio_RSAPrivateKey with the hardcoded
passphrase (lines 125-127) composed with the EVP_PKEY_new/assign wrapping
(lines 134-135); readX509 and readX509Req model the other two PEM decoders.
Each remaining fallible call site has one success flag.  now is the value
of time(NULL) during the invocation, read by X509_gmtime_adj; pemOut is
the byte content PEM_write_bio_X509 deposits in the memory BIO when it
succeeds. -/
structure SSLEnv where
  readRSAPrivateKey : Bytes → Option EvpPkey
  readX509 : Bytes → Option X509Cert
  readX509Req : Bytes → Option X509Req
  x509NewOk : Bool
  setVersionOk : Bool
  setPubkey1Ok : Bool
  setSerialOk : Bool
  setSubjectOk : Bool
  setIssuerOk : Bool
  setPubkey2Ok : Bool
  gmtime1Ok : Bool
  gmtime2Ok : Bool
  signOk : Bool
  pemWriteOk : Bool
  pemOut : Bytes
  now : Int

/-- All per-call-site library success flags hold: the library itself does
not fail internally during this invocation. -/
def SSLEnv.wellBehaved (e : SSLEnv) : Bool :=
  e.x509NewOk && e.setVersionOk && e.setPubkey1Ok && e.setSerialOk &&
  e.setSubjectOk && e.setIssuerOk && e.setPubkey2Ok && e.gmtime1Ok &&
  e.gmtime2Ok && e.signOk && e.pemWriteOk

/-- Pipeline events, one per completed stage action, named after the stage
that performs it. -/
inductive Ev
  | decodedKey
  | decodedCA
  | decodedCSR
  | builtVersion
  | builtPubkey1
  | builtSerial
  | builtSubject
  | builtIssuer
  | verified
  | builtPubkey2
  | builtNotBefore
  | builtNotAfter
  | signed
  | encoded
deriving DecidableEq, Repr

/-- The stderr-and-goto error exits of csr_crt, one constructor per exit
point, in source order. -/
inductive Err
  | badArgc
  | notString (pos : Nat)
  | emptyInput (pos : Nat)
  | keyDecode
  | csrDecode
  | x509NewFail
  | setVersionFail
  | setPubkey1Fail
  | setSerialFail
  | setSubjectFail
  | setIssuerFail
  | reqPubkeyFail
  | verifyFail
  | setPubkey2Fail
  | notBeforeFail
  | notAfterFail
  | signFail
  | pemWriteFail
deriving DecidableEq, Repr

/-- The specification's error taxonomy (spec.md section 7). -/
inductive ErrClass
  | decodeError
  | sigVerifyError
  | buildError
  | signingError
  | encodingError
  | usageError
deriving DecidableEq, Repr

/-- Modelled from the spec: section 7 maps the concrete error exits onto
the error taxonomy.  DecodeError covers malformed or empty input;
SignatureVerificationError covers a failed X509_REQ_verify and an
unextractable request public key (the spec lists unsupported signature
algorithms under it); BuildError covers rejected field assignments;
SigningError and EncodingError the last two stages; the Lua argument
marshalling exits fall outside the spec's taxonomy and are classed as
usage errors. -/
def Err.cls : Err → ErrClass
  | .badArgc => .usageError
  | .notString _ => .usageError
  | .emptyInput _ => .decodeError
  | .keyDecode => .decodeError
  | .csrDecode => .decodeError
  | .x509NewFail => .buildError
  | .setVersionFail => .buildError
  | .setPubkey1Fail => .buildError
  | .setSerialFail => .buildError
  | .setSubjectFail => .buildError
  | .setIssuerFail => .buildError
  | .reqPubkeyFail => .sigVerifyError
  | .verifyFail => .sigVerifyError
  | .setPubkey2Fail => .buildError
  | .notBeforeFail => .buildError
  | .notAfterFail => .buildError
  | .signFail => .signingError
  | .pemWriteFail => .encodingError

/-- The heap objects csr_crt allocates.  pkeyBuf, caBuf, reqBuf are the
three input memory BIOs; rsaKey the RSA from the private-key decode; pkey
the EVP_PKEY wrapper it is assigned into; outBuf the output memory BIO and
pemMem the BUF_MEM that BIO owns (the one BIO_get_mem_ptr exposes at line
282). -/
inductive Res
  | pkeyBuf
  | rsaKey
  | pkey
  | caBuf
  | cacert
  | reqBuf
  | certreq
  | newcert
  | aserial
  | reqPubkey
  | outBuf
  | pemMem
deriving DecidableEq, Repr

/-- What csr_crt hands back to the Lua caller.  fail is rc = 0: zero return
values, the error only named on stderr.  ok is rc = 1: one pushed string of
the given length, together with the final newcert state that the pushed PEM
serialises.  luaErr is a longjmp out of luaL_checklstring.  crash is the
undefined behaviour of dereferencing the never-NULL-checked CA certificate
at line 201 after its decode at line 140 returned NULL. -/
inductive Ret
  | luaErr
  | crash
  | fail (e : Err)
  | ok (cert : X509New) (pushedLen : Nat)
deriving DecidableEq, Repr

/-- A normal return to the Lua caller: rc = 0 with zero values pushed, or
rc = 1 with exactly one pushed string. -/
def normalRet : Ret → Bool
  | .fail _ => true
  | .ok _ _ => true
  | _ => false

/-- One invocation's observable outcome: the value returned to Lua, the
stage-event trace, and the allocation and free traces of the heap objects
of Res. -/
structure RunResult where
  ret : Ret
  trace : List Ev
  allocs : List Res
  frees : List Res
deriving DecidableEq, Repr

/-- Which locals hold a live object when control reaches the __error
cleanup label (lines 289-326).  Locals whose initialisation the goto jumped
over are modelled as NULL, i.e. not live. -/
structure Live where
  pkeyBuf : Bool := false
  pkey : Bool := false
  caBuf : Bool := false
  cacert : Bool := false
  reqPubkey : Bool := false
  reqBuf : Bool := false
  certreq : Bool := false
  newcert : Bool := false
  outBuf : Bool := false

/-- The frees the cleanup block performs, in source order (lines 291-324):
EVP_PKEY_free on the wrapper also frees the RSA assigned into it, and
BIO_free_all on the output memory BIO also frees the BUF_MEM that BIO
owns. -/
def cleanup (l : Live) : List Res :=
  (if l.pkeyBuf then [Res.pkeyBuf] else []) ++
  (if l.pkey then [Res.pkey, Res.rsaKey] else []) ++
  (if l.caBuf then [Res.caBuf] else []) ++
  (if l.cacert then [Res.cacert] else []) ++
  (if l.reqPubkey then [Res.reqPubkey] else []) ++
  (if l.reqBuf then [Res.reqBuf] else []) ++
  (if l.certreq then [Res.certreq] else []) ++
  (if l.newcert then [Res.newcert] else []) ++
  (if l.outBuf then [Res.outBuf, Res.pemMem] else [])

/-- The decode event of the unchecked CA decode: emitted only when
PEM_read_bio_X509 returned an object. -/
def caEv (co : Option X509Cert) : List Ev :=
  if co.isSome then [Ev.decodedCA] else []

/-- The allocation, if any, of the unchecked CA decode. -/
def caAl (co : Option X509Cert) : List Res :=
  if co.isSome then [Res.cacert] else []

/-- Exit at line 130: the private key failed to decode. -/
def exitKeyDecode : RunResult :=
  { ret := .fail .keyDecode, trace := [], allocs := [.pkeyBuf],
    frees := cleanup { pkeyBuf := true } }

/-- Exit at line 150: the CSR failed to decode.  co is the result of the
unchecked CA decode at line 140, already performed. -/
def exitCsrDecode (co : Option X509Cert) : RunResult :=
  { ret := .fail .csrDecode, trace := [.decodedKey] ++ caEv co,
    allocs := [.pkeyBuf, .rsaKey, .pkey, .caBuf] ++ caAl co ++ [.reqBuf],
    frees := cleanup { pkeyBuf := true, pkey := true, caBuf := true,
                       cacert := co.isSome, reqBuf := true } }

/-- Exit at line 160: X509_new failed. -/
def exitX509New (co : Option X509Cert) : RunResult :=
  { ret := .fail .x509NewFail,
    trace := [.decodedKey] ++ caEv co ++ [.decodedCSR],
    allocs := [.pkeyBuf, .rsaKey, .pkey, .caBuf] ++ caAl co ++
              [.reqBuf, .certreq],
    frees := cleanup { pkeyBuf := true, pkey := true, caBuf := true,
                       cacert := co.isSome, reqBuf := true,
                       certreq := true } }

/-- Exit at line 165: X509_set_version failed. -/
def exitSetVersion (co : Option X509Cert) : RunResult :=
  { ret := .fail .setVersionFail,
    trace := [.decodedKey] ++ caEv co ++ [.decodedCSR],
    allocs := [.pkeyBuf, .rsaKey, .pkey, .caBuf] ++ caAl co ++
              [.reqBuf, .certreq, .newcert],
    frees := cleanup { pkeyBuf := true, pkey := true, caBuf := true,
                       cacert := co.isSome, reqBuf := true,
                       certreq := true, newcert := true } }

/-- Exit at line 170: the first X509_set_pubkey failed. -/
def exitSetPubkey1 (co : Option X509Cert) : RunResult :=
  { ret := .fail .setPubkey1Fail,
    trace := [.decodedKey] ++ caEv co ++ [.decodedCSR, .builtVersion],
    allocs := [.pkeyBuf, .rsaKey, .pkey, .caBuf] ++ caAl co ++
              [.reqBuf, .certreq, .newcert],
    frees := cleanup { pkeyBuf := true, pkey := true, caBuf := true,
                       cacert := co.isSome, reqBuf := true,
                       certreq := true, newcert := true } }

/-- Exit at line 178: X509_set_serialNumber failed.  The ASN1_INTEGER
allocated at line 174 is never freed, here or anywhere. -/
def exitSetSerial (co : Option X509Cert) : RunResult :=
  { ret := .fail .setSerialFail,
    trace := [.decodedKey] ++ caEv co ++
             [.decodedCSR, .builtVersion, .builtPubkey1],
    allocs := [.pkeyBuf, .rsaKey, .pkey, .caBuf] ++ caAl co ++
              [.reqBuf, .certreq, .newcert, .aserial],
    frees := cleanup { pkeyBuf := true, pkey := true, caBuf := true,
                       cacert := co.isSome, reqBuf := true,
                       certreq := true, newcert := true } }

/-- Exit at line 195: X509_set_subject_name failed. -/
def exitSetSubject (co : Option X509Cert) : RunResult :=
  { ret := .fail .setSubjectFail,
    trace := [.decodedKey] ++ caEv co ++
             [.decodedCSR, .builtVersion, .builtPubkey1, .builtSerial],
    allocs := [.pkeyBuf, .rsaKey, .pkey, .caBuf] ++ caAl co ++
              [.reqBuf, .certreq, .newcert, .aserial],
    frees := cleanup { pkeyBuf := true, pkey := true, caBuf := true,
                       cacert := co.isSome, reqBuf := true,
                       certreq := true, newcert := true } }

/-- Line 201: X509_get_subject_name dereferences the CA certificate, whose
decode at line 140 was never NULL-checked; with a NULL CA this is undefined
behaviour, so no cleanup runs. -/
def exitCrashCA : RunResult :=
  { ret := .crash,
    trace := [.decodedKey, .decodedCSR, .builtVersion, .builtPubkey1,
              .builtSerial, .builtSubject],
    allocs := [.pkeyBuf, .rsaKey, .pkey, .caBuf,
               .reqBuf, .certreq, .newcert, .aserial],
    frees := [] }

/-- Exit at line 211: X509_set_issuer_name failed. -/
def exitSetIssuer : RunResult :=
  { ret := .fail .setIssuerFail,
    trace := [.decodedKey, .decodedCA, .decodedCSR, .builtVersion,
              .builtPubkey1, .builtSerial, .builtSubject],
    allocs := [.pkeyBuf, .rsaKey, .pkey, .caBuf, .cacert,
               .reqBuf, .certreq, .newcert, .aserial],
    frees := cleanup { pkeyBuf := true, pkey := true, caBuf := true,
                       cacert := true, reqBuf := true,
                       certreq := true, newcert := true } }

/-- Exit at line 220: X509_REQ_get_pubkey failed. -/
def exitReqPubkey : RunResult :=
  { ret := .fail .reqPubkeyFail,
    trace := [.decodedKey, .decodedCA, .decodedCSR, .builtVersion,
              .builtPubkey1, .builtSerial, .builtSubject, .builtIssuer],
    allocs := [.pkeyBuf, .rsaKey, .pkey, .caBuf, .cacert,
               .reqBuf, .certreq, .newcert, .aserial],
    frees := cleanup { pkeyBuf := true, pkey := true, caBuf := true,
                       cacert := true, reqBuf := true,
                       certreq := true, newcert := true } }

/-- Exit at line 228: X509_REQ_verify rejected the request signature. -/
def exitVerify : RunResult :=
  { ret := .fail .verifyFail,
    trace := [.decodedKey, .decodedCA, .decodedCSR, .builtVersion,
              .builtPubkey1, .builtSerial, .builtSubject, .builtIssuer],
    allocs := [.pkeyBuf, .rsaKey, .pkey, .caBuf, .cacert,
               .reqBuf, .certreq, .newcert, .aserial, .reqPubkey],
    frees := cleanup { pkeyBuf := true, pkey := true, caBuf := true,
                       cacert := true, reqPubkey := true, reqBuf := true,
                       certreq := true, newcert := true } }

/-- Exit at line 236: the second X509_set_pubkey failed. -/
def exitSetPubkey2 : RunResult :=
  { ret := .fail .setPubkey2Fail,
    trace := [.decodedKey, .decodedCA, .decodedCSR, .builtVersion,
              .builtPubkey1, .builtSerial, .builtSubject, .builtIssuer,
              .verified],
    allocs := [.pkeyBuf, .rsaKey, .pkey, .caBuf, .cacert,
               .reqBuf, .certreq, .newcert, .aserial, .reqPubkey],
    frees := cleanup { pkeyBuf := true, pkey := true, caBuf := true,
                       cacert := true, reqPubkey := true, reqBuf := true,
                       certreq := true, newcert := true } }

/-- Exit at line 244: X509_gmtime_adj for notBefore failed. -/
def exitNotBefore : RunResult :=
  { ret := .fail .notBeforeFail,
    trace := [.decodedKey, .decodedCA, .decodedCSR, .builtVersion,
              .builtPubkey1, .builtSerial, .builtSubject, .builtIssuer,
              .verified, .builtPubkey2],
    allocs := [.pkeyBuf, .rsaKey, .pkey, .caBuf, .cacert,
               .reqBuf, .certreq, .newcert, .aserial, .reqPubkey],
    frees := cleanup { pkeyBuf := true, pkey := true, caBuf := true,
                       cacert := true, reqPubkey := true, reqBuf := true,
                       certreq := true, newcert := true } }

/-- Exit at line 251: X509_gmtime_adj for notAfter failed. -/
def exitNotAfter : RunResult :=
  { ret := .fail .notAfterFail,
    trace := [.decodedKey, .decodedCA, .decodedCSR, .builtVersion,
              .builtPubkey1, .builtSerial, .builtSubject, .builtIssuer,
              .verified, .builtPubkey2, .builtNotBefore],
    allocs := [.pkeyBuf, .rsaKey, .pkey, .caBuf, .cacert,
               .reqBuf, .certreq, .newcert, .aserial, .reqPubkey],
    frees := cleanup { pkeyBuf := true, pkey := true, caBuf := true,
                       cacert := true, reqPubkey := true, reqBuf := true,
                       certreq := true, newcert := true } }

/-- Exit at line 269: X509_sign failed. -/
def exitSign : RunResult :=
  { ret := .fail .signFail,
    trace := [.decodedKey, .decodedCA, .decodedCSR, .builtVersion,
              .builtPubkey1, .builtSerial, .builtSubject, .builtIssuer,
              .verified, .builtPubkey2, .builtNotBefore, .builtNotAfter],
    allocs := [.pkeyBuf, .rsaKey, .pkey, .caBuf, .cacert,
               .reqBuf, .certreq, .newcert, .aserial, .reqPubkey],
    frees := cleanup { pkeyBuf := true, pkey := true, caBuf := true,
                       cacert := true, reqPubkey := true, reqBuf := true,
                       certreq := true, newcert := true } }

/-- Exit at line 278: PEM_write_bio_X509 failed.  The output memory BIO of
line 275 is already allocated, together with the BUF_MEM it owns. -/
def exitPemWrite : RunResult :=
  { ret := .fail .pemWriteFail,
    trace := [.decodedKey, .decodedCA, .decodedCSR, .builtVersion,
              .builtPubkey1, .builtSerial, .builtSubject, .builtIssuer,
              .verified, .builtPubkey2, .builtNotBefore, .builtNotAfter,
              .signed],
    allocs := [.pkeyBuf, .rsaKey, .pkey, .caBuf, .cacert,
               .reqBuf, .certreq, .newcert, .aserial, .reqPubkey,
               .outBuf, .pemMem],
    frees := cleanup { pkeyBuf := true, pkey := true, caBuf := true,
                       cacert := true, reqPubkey := true, reqBuf := true,
                       certreq := true, newcert := true, outBuf := true } }

/-- The successful exit, lines 281-287 then cleanup.  The certificate state
reflects the assignments in source order: version 2 (line 163), the CA key
set at line 168 then overwritten with the request key at line 234, serial 0
(line 175), subject from the request (line 193), issuer from the CA
certificate (line 209), notBefore = time(NULL) + 0 (line 242), notAfter =
time(NULL) + 31536000 (lines 247-249), SHA-256 signature with the CA
private key (line 267).  lua_pushlstring at line 283 pushes
bptr->length + 1 bytes, one past the buffer content, and BUF_MEM_free at
line 284 frees the buffer that the following BIO_free_all frees again. -/
def exitOk (env : SSLEnv) (pKey : EvpPkey) (certreq : X509Req)
    (ca : X509Cert) (reqPub : EvpPkey) : RunResult :=
  { ret := .ok { version := 2, serial := some 0,
                 subject := some certreq.subject,
                 issuer := some ca.subject,
                 pubkey := some reqPub,
                 notBefore := some (env.now + 0),
                 notAfter := some (env.now + 31536000),
                 signature := some (pKey, Digest.sha256) }
               (env.pemOut.length + 1),
    trace := [.decodedKey, .decodedCA, .decodedCSR, .builtVersion,
              .builtPubkey1, .builtSerial, .builtSubject, .builtIssuer,
              .verified, .builtPubkey2, .builtNotBefore, .builtNotAfter,
              .signed, .encoded],
    allocs := [.pkeyBuf, .rsaKey, .pkey, .caBuf, .cacert,
               .reqBuf, .certreq, .newcert, .aserial, .reqPubkey,
               .outBuf, .pemMem],
    frees := [Res.pemMem] ++
             cleanup { pkeyBuf := true, pkey := true, caBuf := true,
                       cacert := true, reqPubkey := true, reqBuf := true,
                       certreq := true, newcert := true, outBuf := true } }

/-- Lines 198-287 of core.c: from the extraction of the CA certificate's
subject name onward — issuer assignment, request-public-key extraction,
request verification, final public-key assignment, validity window,
signing, PEM serialisation, push, and cleanup. -/
def issuerStage (env : SSLEnv) (pKey : EvpPkey) (certreq : X509Req)
    (ca : X509Cert) : RunResult :=
  if env.setIssuerOk = false then exitSetIssuer else
  match certreq.pubkey with
  | none => exitReqPubkey
  | some reqPub =>
    if certreq.sigValid = false then exitVerify else
    if env.setPubkey2Ok = false then exitSetPubkey2 else
    if env.gmtime1Ok = false then exitNotBefore else
    if env.gmtime2Ok = false then exitNotAfter else
    if env.signOk = false then exitSign else
    if env.pemWriteOk = false then exitPemWrite else
    exitOk env pKey certreq ca reqPub

/-- Lines 157-201 of core.c: creation of the new certificate and the
version, first-public-key, serial and subject assignments, then the
dereference of the CA certificate at line 201.  The CA decode result was
never NULL-checked, so a NULL CA is only discovered here, as undefined
behaviour (exitCrashCA). -/
def builderStage (env : SSLEnv) (pKey : EvpPkey) (crtBytes : Bytes)
    (certreq : X509Req) : RunResult :=
  if env.x509NewOk = false then exitX509New (env.readX509 crtBytes) else
  if env.setVersionOk = false then exitSetVersion (env.readX509 crtBytes) else
  if env.setPubkey1Ok = false then exitSetPubkey1 (env.readX509 crtBytes) else
  if env.setSerialOk = false then exitSetSerial (env.readX509 crtBytes) else
  if env.setSubjectOk = false then exitSetSubject (env.readX509 crtBytes) else
  match env.readX509 crtBytes with
  | none => exitCrashCA
  | some ca => issuerStage env pKey certreq ca

/-- Lines 124-326 of core.c: the body of csr_crt once the three byte
arguments have been fetched and checked non-empty — private-key decode
(checked, line 128), CA-certificate decode (deliberately unchecked, line
140, as in the source), CSR decode (checked, line 148), then the builder
from line 157 on. -/
def csr_crt_core (env : SSLEnv) (pkeyBytes crtBytes csrBytes : Bytes) :
    RunResult :=
  match env.readRSAPrivateKey pkeyBytes with
  | none => exitKeyDecode
  | some pKey =>
    match env.readX509Req csrBytes with
    | none => exitCsrDecode (env.readX509 crtBytes)
    | some certreq => builderStage env pKey crtBytes certreq

/-- A Lua stack value, as far as csr_crt distinguishes them. -/
inductive LuaVal
  | str : Bytes → LuaVal
  | num : Int → LuaVal
  | boolVal : Bool → LuaVal
  | nilVal : LuaVal
  | other : LuaVal
deriving DecidableEq, Repr

/-- lua_isstring: true exactly for Lua strings and numbers (a number is
convertible to a string). -/
def lua_isstring : LuaVal → Bool
  | .str _ => true
  | .num _ => true
  | _ => false

/-- luaL_checklstring: a string yields its bytes, a number is converted in
place to the bytes of its decimal representation; any other type raises a
Lua error, modelled as none. -/
def luaL_checklstring : LuaVal → Option Bytes
  | .str s => some s
  | .num n => some ((toString n).data.map Char.toNat)
  | _ => none

/-- Lines 81-121 of core.c: the argument-count check, then per argument a
lua_isstring guard, the luaL_checklstring fetch and the zero-length check,
in the order private key, CA certificate, CSR; then the body.  Extra
arguments beyond the third are ignored. -/
def csr_crt (env : SSLEnv) (args : List LuaVal) : RunResult :=
  match args with
  | a1 :: a2 :: a3 :: _ =>
    if lua_isstring a1 = false then
      { ret := .fail (.notString 1), trace := [], allocs := [], frees := [] }
    else
      match luaL_checklstring a1 with
      | none =>
        { ret := .luaErr, trace := [], allocs := [], frees := [] }
      | some pkeyBytes =>
        if pkeyBytes.length = 0 then
          { ret := .fail (.emptyInput 1), trace := [], allocs := [],
            frees := [] }
        else
        if lua_isstring a2 = false then
          { ret := .fail (.notString 2), trace := [], allocs := [],
            frees := [] }
        else
          match luaL_checklstring a2 with
          | none =>
            { ret := .luaErr, trace := [], allocs := [], frees := [] }
          | some crtBytes =>
            if crtBytes.length = 0 then
              { ret := .fail (.emptyInput 2), trace := [], allocs := [],
                frees := [] }
            else
            if lua_isstring a3 = false then
              { ret := .fail (.notString 3), trace := [], allocs := [],
                frees := [] }
            else
              match luaL_checklstring a3 with
              | none =>
                { ret := .luaErr, trace := [], allocs := [], frees := [] }
              | some csrBytes =>
                if csrBytes.length = 0 then
                  { ret := .fail (.emptyInput 3), trace := [], allocs := [],
                    frees := [] }
                else
                  csr_crt_core env pkeyBytes crtBytes csrBytes
  | _ =>
    { ret := .fail .badArgc, trace := [], allocs := [], frees := [] }

/-- An early exit of the argument-marshalling prologue: rc = 0, nothing
decoded, nothing allocated. -/
def earlyExit (e : Err) : RunResult :=
  { ret := Ret.fail e, trace := [], allocs := [], frees := [] }

/-- The full stage-event sequence of a maximally successful run, in the
order the source performs the actions.  Note that the verification event
sits after five of the eight certificate-building assignments. -/
def stageTrace : List Ev :=
  [.decodedKey, .decodedCA, .decodedCSR, .builtVersion, .builtPubkey1,
   .builtSerial, .builtSubject, .builtIssuer, .verified, .builtPubkey2,
   .builtNotBefore, .builtNotAfter, .signed, .encoded]

/-- The same stage order when the unchecked CA decode at line 140 returned
NULL: the decodedCA event is absent, and a run can go no further than the
subject assignment, because the NULL CA certificate is dereferenced at the
issuer step (line 201). -/
def stageTraceNoCA : List Ev :=
  [.decodedKey, .decodedCSR, .builtVersion, .builtPubkey1,
   .builtSerial, .builtSubject]

/-- Certificate-building field assignments, as events. -/
def isBuildEv : Ev → Bool
  | .builtVersion => true
  | .builtPubkey1 => true
  | .builtSerial => true
  | .builtSubject => true
  | .builtIssuer => true
  | .builtPubkey2 => true
  | .builtNotBefore => true
  | .builtNotAfter => true
  | _ => false

/-- The ordering property claimed of a run: no certificate-building
assignment happens before the request verification. -/
def noBuildBeforeVerify (t : List Ev) : Bool :=
  (t.takeWhile (fun e => !decide (e = Ev.verified))).all fun e => !isBuildEv e

/-- The X.509 version a stored version field denotes: the on-the-wire
field is zero-based, so X509_set_version(newcert, 2) at line 163 selects
X.509 version 3. -/
def versionDenoted (fieldValue : Nat) : Nat := fieldValue + 1

/-! Concrete fixtures: a well-behaved library environment in which the three
test blobs decode to a key, a CA certificate and a correctly self-signed
request, plus variants with a tampered request and an undecodable CA
certificate. -/

def keyBytesG : Bytes := [1]

def caBytesG : Bytes := [2]

def csrBytesG : Bytes := [3]

def pkG : EvpPkey := { keyId := 1 }

def rkG : EvpPkey := { keyId := 2 }

def caG : X509Cert := { subject := { nameId := 10 } }

def reqG : X509Req :=
  { subject := { nameId := 20 }, pubkey := some rkG, sigValid := true }

/-- Tampered request: same content, failing self-signature. -/
def reqT : X509Req :=
  { subject := { nameId := 20 }, pubkey := some rkG, sigValid := false }

def envG : SSLEnv :=
  { readRSAPrivateKey := fun b => if b = keyBytesG then some pkG else none,
    readX509 := fun b => if b = caBytesG then some caG else none,
    readX509Req := fun b => if b = csrBytesG then some reqG else none,
    x509NewOk := true, setVersionOk := true, setPubkey1Ok := true,
    setSerialOk := true, setSubjectOk := true, setIssuerOk := true,
    setPubkey2Ok := true, gmtime1Ok := true, gmtime2Ok := true,
    signOk := true, pemWriteOk := true, pemOut := [65, 66, 67], now := 1000 }

/-- Same library, but the CA-certificate blob does not decode. -/
def envBadCA : SSLEnv := { envG with readX509 := fun _ => none }

/-- Same library, but the request's self-signature fails to verify. -/
def envT : SSLEnv :=
  { envG with readX509Req := fun b => if b = csrBytesG then some reqT else none }

def argsG : List LuaVal := [.str keyBytesG, .str caBytesG, .str csrBytesG]

/-- The same three blobs plus an ignored fourth argument of another type:
csr_crt reads only the first three stack slots. -/
def argsN : List LuaVal :=
  [.str keyBytesG, .str caBytesG, .str csrBytesG, .nilVal]

/-- The certificate the well-behaved run builds. -/
def certG : X509New :=
  { version := 2, serial := some 0, subject := some { nameId := 20 },
    issuer := some { nameId := 10 }, pubkey := some rkG,
    notBefore := some 1000, notAfter := some 31537000,
    signature := some (pkG, Digest.sha256) }

example : (csr_crt envG argsG).ret = Ret.ok certG 4 := by decide

example : (csr_crt envT argsG).ret = Ret.fail Err.verifyFail := by decide

example : (csr_crt envBadCA argsG).ret = Ret.crash := by decide

/-! Helper lemmas shared by the claim theorems. -/

lemma argCases (v : LuaVal) :
    lua_isstring v = false ∨
    (∃ b, lua_isstring v = true ∧ luaL_checklstring v = some b) := by
  cases v <;> simp [lua_isstring, luaL_checklstring]

lemma issuerStage_ret_ne_luaErr (env : SSLEnv) (pKey : EvpPkey)
    (certreq : X509Req) (ca : X509Cert) :
    (issuerStage env pKey certreq ca).ret ≠ Ret.luaErr := by
  intro h
  unfold issuerStage at h
  repeat' split at h
  all_goals
    simp [exitSetIssuer, exitReqPubkey, exitVerify, exitSetPubkey2,
          exitNotBefore, exitNotAfter, exitSign, exitPemWrite, exitOk] at h

lemma builderStage_ret_ne_luaErr (env : SSLEnv) (pKey : EvpPkey)
    (crtBytes : Bytes) (certreq : X509Req) :
    (builderStage env pKey crtBytes certreq).ret ≠ Ret.luaErr := by
  intro h
  unfold builderStage at h
  repeat' split at h
  all_goals
    first
    | exact issuerStage_ret_ne_luaErr _ _ _ _ h
    | simp [exitX509New, exitSetVersion, exitSetPubkey1, exitSetSerial,
            exitSetSubject, exitCrashCA] at h

/-- Every run of the function body returns through one of its explicit
exits: no Lua error is ever raised there. -/
lemma core_ret_ne_luaErr (env : SSLEnv) (p q r : Bytes) :
    (csr_crt_core env p q r).ret ≠ Ret.luaErr := by
  intro h
  unfold csr_crt_core at h
  repeat' split at h
  all_goals
    first
    | exact builderStage_ret_ne_luaErr _ _ _ _ h
    | simp [exitKeyDecode, exitCsrDecode] at h

lemma core_ret_shape (env : SSLEnv) (p q r : Bytes) :
    (csr_crt_core env p q r).ret ≠ Ret.luaErr ∧
    ((csr_crt_core env p q r).ret ≠ Ret.crash →
      normalRet (csr_crt_core env p q r).ret = true) := by
  refine ⟨core_ret_ne_luaErr env p q r, fun hc => ?_⟩
  cases hret : (csr_crt_core env p q r).ret with
  | luaErr => exact absurd hret (core_ret_ne_luaErr env p q r)
  | crash => exact absurd hret hc
  | fail e => simp [normalRet]
  | ok c n => simp [normalRet]

/-- Every invocation either stops in the argument-marshalling prologue with
rc = 0 or runs the body on the three fetched byte strings. -/
lemma crt_cases (env : SSLEnv) (args : List LuaVal) :
    (∃ e, csr_crt env args = earlyExit e) ∨
    (∃ p q r, csr_crt env args = csr_crt_core env p q r) := by
  match args with
  | [] => exact Or.inl ⟨.badArgc, rfl⟩
  | [_] => exact Or.inl ⟨.badArgc, rfl⟩
  | [_, _] => exact Or.inl ⟨.badArgc, rfl⟩
  | a1 :: a2 :: a3 :: rest =>
    rcases argCases a1 with h1 | ⟨b1, hs1, hc1⟩
    · exact Or.inl ⟨.notString 1, by simp [csr_crt, h1, earlyExit]⟩
    by_cases hb1 : b1.length = 0
    · exact Or.inl ⟨.emptyInput 1, by simp [csr_crt, hs1, hc1, hb1, earlyExit]⟩
    rcases argCases a2 with h2 | ⟨b2, hs2, hc2⟩
    · exact Or.inl ⟨.notString 2, by simp [csr_crt, hs1, hc1, hb1, h2, earlyExit]⟩
    by_cases hb2 : b2.length = 0
    · exact Or.inl ⟨.emptyInput 2,
        by simp [csr_crt, hs1, hc1, hb1, hs2, hc2, hb2, earlyExit]⟩
    rcases argCases a3 with h3 | ⟨b3, hs3, hc3⟩
    · exact Or.inl ⟨.notString 3,
        by simp [csr_crt, hs1, hc1, hb1, hs2, hc2, hb2, h3, earlyExit]⟩
    by_cases hb3 : b3.length = 0
    · exact Or.inl ⟨.emptyInput 3,
        by simp [csr_crt, hs1, hc1, hb1, hs2, hc2, hb2, hs3, hc3, hb3, earlyExit]⟩
    exact Or.inr ⟨b1, b2, b3,
      by simp [csr_crt, hs1, hc1, hb1, hs2, hc2, hb2, hs3, hc3, hb3]⟩

lemma issuerStage_ok_fields (env : SSLEnv) (pKey : EvpPkey)
    (certreq : X509Req) (ca : X509Cert) (c : X509New) (n : Nat)
    (h : (issuerStage env pKey certreq ca).ret = Ret.ok c n) :
    c.notBefore = some env.now ∧ c.notAfter = some (env.now + 31536000) ∧
    c.version = 2 ∧ c.serial = some 0 ∧ n = env.pemOut.length + 1 := by
  unfold issuerStage at h
  repeat' split at h
  all_goals
    simp [exitSetIssuer, exitReqPubkey, exitVerify, exitSetPubkey2,
          exitNotBefore, exitNotAfter, exitSign, exitPemWrite, exitOk] at h
  obtain ⟨hc, hn⟩ := h
  subst hc
  subst hn
  simp

lemma builderStage_ok_fields (env : SSLEnv) (pKey : EvpPkey)
    (crtBytes : Bytes) (certreq : X509Req) (c : X509New) (n : Nat)
    (h : (builderStage env pKey crtBytes certreq).ret = Ret.ok c n) :
    c.notBefore = some env.now ∧ c.notAfter = some (env.now + 31536000) ∧
    c.version = 2 ∧ c.serial = some 0 ∧ n = env.pemOut.length + 1 := by
  unfold builderStage at h
  repeat' split at h
  all_goals
    first
    | exact issuerStage_ok_fields _ _ _ _ _ _ h
    | simp [exitX509New, exitSetVersion, exitSetPubkey1, exitSetSerial,
            exitSetSubject, exitCrashCA] at h

/-- On any successful run of the body, the serialised certificate carries
the constants and validity window the builder assigned, and the pushed
string is one byte longer than the PEM buffer. -/
lemma core_ok_fields (env : SSLEnv) (p q r : Bytes) (c : X509New) (n : Nat)
    (h : (csr_crt_core env p q r).ret = Ret.ok c n) :
    c.notBefore = some env.now ∧ c.notAfter = some (env.now + 31536000) ∧
    c.version = 2 ∧ c.serial = some 0 ∧ n = env.pemOut.length + 1 := by
  unfold csr_crt_core at h
  repeat' split at h
  all_goals
    first
    | exact builderStage_ok_fields _ _ _ _ _ _ h
    | simp [exitKeyDecode, exitCsrDecode] at h

/-- The same field facts lifted to the full Lua entry point. -/
lemma crt_ok_fields (env : SSLEnv) (args : List LuaVal) (c : X509New) (n : Nat)
    (h : (csr_crt env args).ret = Ret.ok c n) :
    c.notBefore = some env.now ∧ c.notAfter = some (env.now + 31536000) ∧
    c.version = 2 ∧ c.serial = some 0 ∧ n = env.pemOut.length + 1 := by
  rcases crt_cases env args with ⟨e, he⟩ | ⟨p, q, r, he⟩
  · rw [he] at h; simp [earlyExit] at h
  · rw [he] at h; exact core_ok_fields env p q r c n h

/-- With three non-empty string arguments the prologue hands the three byte
strings to the body unchanged. -/
lemma crt_str_eq (env : SSLEnv) (k q r : Bytes) (rest : List LuaVal)
    (hk0 : k ≠ []) (hq0 : q ≠ []) (hr0 : r ≠ []) :
    csr_crt env (LuaVal.str k :: LuaVal.str q :: LuaVal.str r :: rest) =
      csr_crt_core env k q r := by
  simp [csr_crt, lua_isstring, luaL_checklstring, List.length_eq_zero,
        hk0, hq0, hr0]

lemma issuerStage_trace_take (env : SSLEnv) (pKey : EvpPkey)
    (certreq : X509Req) (ca : X509Cert) :
    ∃ m, (issuerStage env pKey certreq ca).trace = stageTrace.take m := by
  unfold issuerStage
  repeat' split
  all_goals
    first
    | exact ⟨7, rfl⟩
    | exact ⟨8, rfl⟩
    | exact ⟨9, rfl⟩
    | exact ⟨10, rfl⟩
    | exact ⟨11, rfl⟩
    | exact ⟨12, rfl⟩
    | exact ⟨13, rfl⟩
    | exact ⟨14, rfl⟩

lemma builderStage_trace_take (env : SSLEnv) (pKey : EvpPkey)
    (crtBytes : Bytes) (certreq : X509Req) :
    (∃ m, (builderStage env pKey crtBytes certreq).trace = stageTrace.take m) ∨
    (∃ m, (builderStage env pKey crtBytes certreq).trace
      = stageTraceNoCA.take m) := by
  unfold builderStage
  cases hco : env.readX509 crtBytes with
  | none =>
    simp only [hco]
    repeat' split
    all_goals
      first
      | exact Or.inr ⟨2, rfl⟩
      | exact Or.inr ⟨3, rfl⟩
      | exact Or.inr ⟨4, rfl⟩
      | exact Or.inr ⟨5, rfl⟩
      | exact Or.inr ⟨6, rfl⟩
  | some ca =>
    simp only [hco]
    repeat' split
    all_goals
      first
      | exact Or.inl ⟨3, rfl⟩
      | exact Or.inl ⟨4, rfl⟩
      | exact Or.inl ⟨5, rfl⟩
      | exact Or.inl ⟨6, rfl⟩
      | exact Or.inl ⟨7, rfl⟩
      | exact Or.inl (issuerStage_trace_take env pKey certreq ca)

lemma core_trace_take (env : SSLEnv) (p q r : Bytes) :
    (∃ m, (csr_crt_core env p q r).trace = stageTrace.take m) ∨
    (∃ m, (csr_crt_core env p q r).trace = stageTraceNoCA.take m) := by
  unfold csr_crt_core
  cases hco : env.readX509 q with
  | none =>
    repeat' split
    all_goals
      first
      | exact Or.inl ⟨0, rfl⟩
      | exact Or.inl ⟨1, rfl⟩
      | exact builderStage_trace_take env _ q _
  | some ca =>
    repeat' split
    all_goals
      first
      | exact Or.inl ⟨0, rfl⟩
      | exact Or.inl ⟨2, rfl⟩
      | exact builderStage_trace_take env _ q _

/-! The claim theorems. -/

/-- Claim C1: for every valid input triple — the private key, CA
certificate and CSR all decode, the CSR's self-signature verifies against
its embedded public key, and the library itself does not fail — csr_crt
succeeds and returns a certificate whose issuer name is the CA
certificate's subject name, whose subject name is the CSR's subject name,
and whose public key is the CSR's public key. -/
theorem round_trip (env : SSLEnv) (k q r : Bytes) (rest : List LuaVal)
    (pk : EvpPkey) (ca : X509Cert) (req : X509Req) (rk : EvpPkey)
    (hk : env.readRSAPrivateKey k = some pk)
    (hca : env.readX509 q = some ca)
    (hreq : env.readX509Req r = some req)
    (hrk : req.pubkey = some rk)
    (hsig : req.sigValid = true)
    (hk0 : k ≠ []) (hq0 : q ≠ []) (hr0 : r ≠ [])
    (hwb : env.wellBehaved = true) :
    ∃ c n,
      (csr_crt env (LuaVal.str k :: LuaVal.str q :: LuaVal.str r :: rest)).ret
        = Ret.ok c n ∧
      c.issuer = some ca.subject ∧ c.subject = some req.subject ∧
      c.pubkey = some rk := by
  simp only [SSLEnv.wellBehaved, Bool.and_eq_true] at hwb
  obtain ⟨⟨⟨⟨⟨⟨⟨⟨⟨⟨h1, h2⟩, h3⟩, h4⟩, h5⟩, h6⟩, h7⟩, h8⟩, h9⟩, h10⟩, h11⟩ := hwb
  rw [crt_str_eq env k q r rest hk0 hq0 hr0]
  refine ⟨{ version := 2, serial := some 0, subject := some req.subject,
            issuer := some ca.subject, pubkey := some rk,
            notBefore := some (env.now + 0),
            notAfter := some (env.now + 31536000),
            signature := some (pk, Digest.sha256) },
          env.pemOut.length + 1, ?_, rfl, rfl, rfl⟩
  simp [csr_crt_core, builderStage, issuerStage, hk, hca, hreq, hrk, hsig,
        h1, h2, h3, h4, h5, h6, h7, h8, h9, h10, h11, exitOk]

/-- Witness for round_trip at the concrete fixtures. -/
theorem round_trip_witness :
    ∃ c n, (csr_crt envG argsG).ret = Ret.ok c n ∧
      c.issuer = some caG.subject ∧ c.subject = some reqG.subject ∧
      c.pubkey = some rkG :=
  round_trip envG keyBytesG caBytesG csrBytesG [] pkG caG reqG rkG
    (by decide) (by decide) (by decide) (by decide) (by decide)
    (by decide) (by decide) (by decide) (by decide)

/-- Claim C2: when the CSR decodes but its self-signature does not verify
against its own embedded public key, csr_crt fails with the
signature-verification error (classed SignatureVerificationError by the
spec taxonomy) and pushes no output value. -/
theorem tamper_rejection (env : SSLEnv) (k q r : Bytes) (rest : List LuaVal)
    (pk : EvpPkey) (ca : X509Cert) (req : X509Req) (rk : EvpPkey)
    (hk : env.readRSAPrivateKey k = some pk)
    (hca : env.readX509 q = some ca)
    (hreq : env.readX509Req r = some req)
    (hrk : req.pubkey = some rk)
    (hsig : req.sigValid = false)
    (hk0 : k ≠ []) (hq0 : q ≠ []) (hr0 : r ≠ [])
    (hwb : env.wellBehaved = true) :
    (csr_crt env (LuaVal.str k :: LuaVal.str q :: LuaVal.str r :: rest)).ret
      = Ret.fail Err.verifyFail ∧
    Err.cls Err.verifyFail = ErrClass.sigVerifyError := by
  simp only [SSLEnv.wellBehaved, Bool.and_eq_true] at hwb
  obtain ⟨⟨⟨⟨⟨⟨⟨⟨⟨⟨h1, h2⟩, h3⟩, h4⟩, h5⟩, h6⟩, h7⟩, h8⟩, h9⟩, h10⟩, h11⟩ := hwb
  rw [crt_str_eq env k q r rest hk0 hq0 hr0]
  refine ⟨?_, rfl⟩
  simp [csr_crt_core, builderStage, issuerStage, hk, hca, hreq, hrk, hsig,
        h1, h2, h3, h4, h5, h6, exitVerify]

/-- Witness for tamper_rejection at the tampered fixtures. -/
theorem tamper_rejection_witness :
    (csr_crt envT argsG).ret = Ret.fail Err.verifyFail ∧
    Err.cls Err.verifyFail = ErrClass.sigVerifyError :=
  tamper_rejection envT keyBytesG caBytesG csrBytesG [] pkG caG reqT rkG
    (by decide) (by decide) (by decide) (by decide) (by decide)
    (by decide) (by decide) (by decide) (by decide)

/-- Claim C3, counterexample: on a fully successful concrete run the event
trace has certificate-building assignments strictly before the request
verification, so the claimed ordering — verification before any
certificate-building field assignment — is false on the code. -/
theorem verify_after_build_counterexample :
    noBuildBeforeVerify (csr_crt envG argsG).trace = false := by decide

/-- Claim C3, amended: in every invocation the stage events happen in one
fixed order — decode key, decode CA, decode CSR, then the
certificate-building assignments version, first public key, serial,
subject and issuer, then the CSR self-signature verification, then the
final public-key assignment, notBefore, notAfter, signing and encoding —
and every run performs a prefix of this order, except that when the
CA-certificate decode fails the decodedCA event is absent and the run
performs a prefix of the same order that stops at the subject assignment
(the NULL CA is dereferenced at the issuer step).  Verification thus comes
after decoding and before signing, but after the version, first
public-key, serial, subject and issuer assignments, not before any
certificate-building assignment. -/
theorem stage_order (env : SSLEnv) (args : List LuaVal) :
    (∃ m, (csr_crt env args).trace = stageTrace.take m) ∨
    (∃ m, (csr_crt env args).trace = stageTraceNoCA.take m) := by
  rcases crt_cases env args with ⟨e, he⟩ | ⟨p, q, r, he⟩
  · rw [he]
    exact Or.inl ⟨0, rfl⟩
  · rw [he]
    exact core_trace_take env p q r

/-- Claim C4: with a CA-certificate blob that does not decode, csr_crt does
not fail with a decode error; the unchecked NULL from line 140 flows into
the builder stages (the trace shows the CSR decode and four building
assignments happening) and is dereferenced at line 201 — undefined
behaviour, modelled as a crash. -/
theorem ca_decode_unchecked :
    (csr_crt envBadCA argsG).ret = Ret.crash ∧
    (csr_crt envBadCA argsG).trace =
      [Ev.decodedKey, Ev.decodedCSR, Ev.builtVersion, Ev.builtPubkey1,
       Ev.builtSerial, Ev.builtSubject] := by decide

/-- Claim C5: every successful invocation sets notBefore to the call's
current time and notAfter to exactly 31536000 seconds later. -/
theorem validity_window (env : SSLEnv) (args : List LuaVal) (c : X509New)
    (n : Nat) (h : (csr_crt env args).ret = Ret.ok c n) :
    c.notBefore = some env.now ∧ c.notAfter = some (env.now + 31536000) :=
  ⟨(crt_ok_fields env args c n h).1, (crt_ok_fields env args c n h).2.1⟩

/-- Witness for validity_window at the concrete fixtures. -/
theorem validity_window_witness :
    certG.notBefore = some envG.now ∧
    certG.notAfter = some (envG.now + 31536000) :=
  validity_window envG argsG certG 4 (by decide)

/-- Claim C6: every successful invocation stores version field 2, which
denotes X.509 version 3, and serial number 0 — the same constants on every
call. -/
theorem version_and_serial (env : SSLEnv) (args : List LuaVal) (c : X509New)
    (n : Nat) (h : (csr_crt env args).ret = Ret.ok c n) :
    c.version = 2 ∧ versionDenoted c.version = 3 ∧ c.serial = some 0 := by
  have hf := crt_ok_fields env args c n h
  exact ⟨hf.2.2.1, by simp [versionDenoted, hf.2.2.1], hf.2.2.2.1⟩

/-- Witness for version_and_serial at the concrete fixtures. -/
theorem version_and_serial_witness :
    certG.version = 2 ∧ versionDenoted certG.version = 3 ∧
    certG.serial = some 0 :=
  version_and_serial envG argsG certG 4 (by decide)

/-- Claim C7: on success the pushed Lua string is one byte longer than the
PEM buffer's reported length — the off-by-one of line 283. -/
theorem pushed_length_off_by_one (env : SSLEnv) (args : List LuaVal)
    (c : X509New) (n : Nat) (h : (csr_crt env args).ret = Ret.ok c n) :
    n = env.pemOut.length + 1 :=
  (crt_ok_fields env args c n h).2.2.2.2

/-- Witness for pushed_length_off_by_one at the concrete fixtures. -/
theorem pushed_length_off_by_one_witness : (4 : Nat) = envG.pemOut.length + 1 :=
  pushed_length_off_by_one envG argsG certG 4 (by decide)

/-- Claim C8: an empty private key, CA certificate or CSR makes csr_crt
fail — with an error the spec taxonomy classes as DecodeError — before any
decode or allocation, and the first empty input in the order key, CA
certificate, CSR is the one reported. -/
theorem empty_input_rejection (env : SSLEnv) (a b c : Bytes)
    (rest : List LuaVal) (h : a = [] ∨ b = [] ∨ c = []) :
    csr_crt env (LuaVal.str a :: LuaVal.str b :: LuaVal.str c :: rest) =
      earlyExit (Err.emptyInput (if a = [] then 1 else if b = [] then 2 else 3)) ∧
    Err.cls (Err.emptyInput (if a = [] then 1 else if b = [] then 2 else 3)) =
      ErrClass.decodeError := by
  refine ⟨?_, rfl⟩
  by_cases ha : a = []
  · subst ha
    simp [csr_crt, lua_isstring, luaL_checklstring, earlyExit]
  by_cases hb : b = []
  · subst hb
    simp [csr_crt, lua_isstring, luaL_checklstring, earlyExit,
          List.length_eq_zero, ha]
  have hc : c = [] := by tauto
  subst hc
  simp [csr_crt, lua_isstring, luaL_checklstring, earlyExit,
        List.length_eq_zero, ha, hb]

/-- Witness for empty_input_rejection with an empty CA-certificate blob. -/
theorem empty_input_rejection_witness :
    csr_crt envG [LuaVal.str [1], LuaVal.str [], LuaVal.str [3]] =
      earlyExit (Err.emptyInput 2) ∧
    Err.cls (Err.emptyInput 2) = ErrClass.decodeError :=
  empty_input_rejection envG [1] [] [3] [] (Or.inr (Or.inl rfl))

/-- Claim C9: on a fully successful concrete run the cleanup is not
exactly-once — the PEM output buffer is freed twice (BUF_MEM_free at line
284, then again by BIO_free_all on the owning memory BIO at line 323), and
the serial-number ASN1_INTEGER allocated at line 174 is never freed. -/
theorem cleanup_double_free :
    (csr_crt envG argsG).ret = Ret.ok certG 4 ∧
    (csr_crt envG argsG).frees.count Res.pemMem = 2 ∧
    (csr_crt envG argsG).allocs.count Res.aserial = 1 ∧
    (csr_crt envG argsG).frees.count Res.aserial = 0 := by decide

/-- Claim C10, counterexample: an invocation whose CA certificate fails to
decode does not return normally at all — it crashes on the NULL dereference
— so the claim that every invocation returns normally is false. -/
theorem returns_normally_counterexample :
    normalRet (csr_crt envBadCA argsN).ret = false := by decide

/-- Claim C10, amended: csr_crt never raises a Lua error, because every
luaL_checklstring is guarded by a preceding lua_isstring check; and every
invocation that does not hit the unchecked-NULL-CA dereference returns
normally to the Lua caller, with zero values on failure or exactly one
string on success. -/
theorem no_lua_error (env : SSLEnv) (args : List LuaVal) :
    (csr_crt env args).ret ≠ Ret.luaErr ∧
    ((csr_crt env args).ret ≠ Ret.crash →
      normalRet (csr_crt env args).ret = true) := by
  rcases crt_cases env args with ⟨e, he⟩ | ⟨p, q, r, he⟩
  · rw [he]
    exact ⟨by simp [earlyExit], fun _ => by simp [earlyExit, normalRet]⟩
  · rw [he]
    exact core_ret_shape env p q r

/-- Witness for no_lua_error at the concrete fixtures. -/
theorem no_lua_error_witness : normalRet (csr_crt envG argsG).ret = true :=
  (no_lua_error envG argsG).2 (by decide)

end LuaOpenSSL
